import Mathlib

/-!
Verification of the Nexia Room IQ Sensors integration (`__init__.py`, `sensor.py`).

The development shallowly embeds the Python source:

* JSON values (the per-zone `_zone_json` blob) become the inductive `Json`;
  Python `dict.get`, truthiness, `==`, and `for`-iteration are modelled by
  `pyGet`/`pyGetD`, `truthy`, `pyEq`, and `iterElems`.
* Exceptions are modelled explicitly: a helper that can raise returns
  `Except String _`, and each `try/except` block of the source appears as a
  `match` on that result; functions whose `except` handlers swallow every
  exception are total and additionally report whether a handler fired.
* The side effects of the monkey-patching code (assignment to module and
  coordinator attributes, the `_original_*` globals) are modelled by explicit
  state passing over records, and the awaited effects of the wrapped
  coroutines (fresh-data requests, sleeps, calls to the saved originals) are
  modelled as event traces.
-/

namespace NexiaRoomIQ

/-- A JSON value, as stored in a zone's `_zone_json` blob.  `null` doubles as
Python `None` (which is what `dict.get` returns for a missing key). -/
inductive Json where
  | null
  | bool (b : Bool)
  | num (q : Rat)
  | str (s : String)
  | arr (xs : List Json)
  | obj (kvs : List (String × Json))
deriving Repr

mutual

/-- Structural equality of JSON values (used as the container and
mixed-scalar fallback of Python `==`, see `pyEq`). -/
def Json.beq : Json → Json → Bool
  | .null, .null => true
  | .bool a, .bool b => a == b
  | .num a, .num b => a == b
  | .str a, .str b => a == b
  | .arr a, .arr b => Json.beqList a b
  | .obj a, .obj b => Json.beqKvs a b
  | _, _ => false

/-- Elementwise equality of JSON arrays. -/
def Json.beqList : List Json → List Json → Bool
  | [], [] => true
  | a :: as, b :: bs => Json.beq a b && Json.beqList as bs
  | _, _ => false

/-- Entrywise equality of JSON objects (insertion order included; the blobs
consumed by the integration have unique keys, for which this agrees with
Python dict equality). -/
def Json.beqKvs : List (String × Json) → List (String × Json) → Bool
  | [], [] => true
  | (k, v) :: as, (l, w) :: bs => k == l && Json.beq v w && Json.beqKvs as bs
  | _, _ => false

end

/-- Python `==` between two JSON values: `True`/`False` compare equal to the
numbers `1`/`0` (Python `bool` is an `int` subtype); everything else is
structural. -/
def pyEq (a b : Json) : Bool :=
  match a, b with
  | .bool x, .num q => (if x then (1 : Rat) else 0) == q
  | .num q, .bool x => q == (if x then (1 : Rat) else 0)
  | _, _ => Json.beq a b

/-- Python truthiness of a JSON value: `None`/`False`/`0`/`""` and empty
containers are falsy. -/
def truthy : Json → Bool
  | .null => false
  | .bool b => b
  | .num q => !(q == 0)
  | .str s => !(s == "")
  | .arr xs => !xs.isEmpty
  | .obj kvs => !kvs.isEmpty

/-- Lookup in a JSON object, Python-dict style: when a key is repeated the
last binding wins (a dict built from the pairs keeps the last value). -/
def pyLookup (kvs : List (String × Json)) (k : String) : Option Json :=
  (kvs.reverse.find? fun kv => kv.1 == k).map Prod.snd

/-- Python `d.get(k, default)` on an object's entries. -/
def pyGetD (kvs : List (String × Json)) (k : String) (dflt : Json) : Json :=
  (pyLookup kvs k).getD dflt

/-- Python `d.get(k)` on an object's entries (`None` when absent). -/
def pyGet (kvs : List (String × Json)) (k : String) : Json :=
  pyGetD kvs k Json.null

/-- Python `for x in j`: arrays yield their elements, strings their
one-character substrings, dicts their keys; other values raise `TypeError`. -/
def iterElems : Json → Except String (List Json)
  | .arr xs => .ok xs
  | .str s => .ok (s.toList.map fun c => Json.str (String.mk [c]))
  | .obj kvs => .ok (kvs.map fun kv => Json.str kv.1)
  | _ => .error "TypeError: object is not iterable"

/-- The four values of `sensor_type` handed to `NexiaRoomIQSensor.__init__`
by `_create_roomiq_sensors`. -/
inductive SensorType where
  | temperature
  | humidity
  | battery
  | weight
deriving DecidableEq, Repr

/-- The identity of one created `NexiaRoomIQSensor` entity: the zone it is
attached to, the `id` and `name` JSON values taken from its sensor record,
and the metric it reports.  (The coordinator/zone/thermostat object
references stored by `__init__` are shared by every entity of a call and
carry no further per-entity information.) -/
structure RoomIQEntity where
  zone_id : Nat
  sensor_id : Json
  sensor_name : Json
  sensor_type : SensorType
deriving Repr

/-- A zone object of the sibling integration, as seen by this code:
`zone_id`, the display name, the raw `_zone_json` attribute (`none` models a
zone object without that attribute, so that `getattr(zone, "_zone_json",
None)` yields `None`), and whether `zone.load_current_sensor_state()`
raises. -/
structure Zone where
  zone_id : Nat
  name : String
  zone_json : Option Json
  loadFails : Bool

/-- One iteration of the `for sensor_data in sensors` loop of
`_create_roomiq_sensors`: the entities appended for this record, paired with
`true` when the per-record `except` handler fired (a record on which
`sensor_data.get` raises, i.e. a non-dict record).  A record missing a
truthy `id` or `name` is skipped with a warning (no exception). -/
def processSensor (zoneId : Nat) (sd : Json) : List RoomIQEntity × Bool :=
  match sd with
  | .obj skvs =>
    let sid := pyGet skvs "id"
    let sname := pyGet skvs "name"
    if !truthy sid || !truthy sname then ([], false)
    else
      ((if truthy (pyGetD skvs "temperature_valid" (.bool false)) then
          [⟨zoneId, sid, sname, .temperature⟩] else [])
       ++ (if truthy (pyGetD skvs "humidity_valid" (.bool false)) then
          [⟨zoneId, sid, sname, .humidity⟩] else [])
       ++ (if truthy (pyGetD skvs "has_battery" (.bool false))
              && truthy (pyGetD skvs "battery_valid" (.bool false)) then
          [⟨zoneId, sid, sname, .battery⟩] else [])
       ++ [⟨zoneId, sid, sname, .weight⟩], false)
  | _ => ([], true)

/-- The `for feature in features` search of `_create_roomiq_sensors`: the
first feature whose `name` equals `"room_iq_sensors"` (the loop `break`s
there); a non-dict feature encountered on the way raises (`.get` on it). -/
def findRoomIqFeature : List Json → Except String (Option Json)
  | [] => .ok none
  | f :: rest =>
    match f with
    | .obj fkvs =>
      if pyEq (pyGet fkvs "name") (.str "room_iq_sensors") then .ok (some f)
      else findRoomIqFeature rest
    | _ => .error "AttributeError: no attribute get"

/-- `_create_roomiq_sensors(coordinator, zone, thermostat)`: the entity list
it returns, paired with `true` when any `except` handler of the function
(per-record or outer) fired.  Every return path of the source returns the
`entities` accumulated so far; the outer handler's paths are the branches
pairing with `true` outside `processSensor`. -/
def createRoomIQSensorsFull (z : Zone) : List RoomIQEntity × Bool :=
  match z.zone_json with
  | none => ([], false)
  | some zd =>
    match zd with
    | .obj zkvs =>
      match iterElems (pyGetD zkvs "features" (.arr [])) with
      | .error _ => ([], true)
      | .ok felems =>
        match findRoomIqFeature felems with
        | .error _ => ([], true)
        | .ok none => ([], false)
        | .ok (some f) =>
          if !truthy f then ([], false)
          else
            match f with
            | .obj fkvs =>
              let sensors := pyGetD fkvs "sensors" (.arr [])
              if !truthy sensors then ([], false)
              else
                match iterElems sensors with
                | .error _ => ([], true)
                | .ok selems =>
                  let results := selems.map (processSensor z.zone_id)
                  (results.flatMap Prod.fst, results.any Prod.snd)
            | _ => ([], true)
    | _ => ([], true)

/-- The value `_create_roomiq_sensors` returns to its caller. -/
def createRoomIQSensors (z : Zone) : List RoomIQEntity :=
  (createRoomIQSensorsFull z).1

/-- A thermostat of the sibling integration's `nexia_home`: its id and its
zones. -/
structure Thermostat where
  id : Nat
  zones : List Zone

/-- The sibling integration's `NexiaHome` object, as traversed here. -/
structure NexiaHome where
  thermostats : List Thermostat

/-- `nexia_home.get_thermostat_ids()`. -/
def NexiaHome.getThermostatIds (h : NexiaHome) : List Nat :=
  h.thermostats.map Thermostat.id

/-- `nexia_home.get_thermostat_by_id(tid)`. -/
def NexiaHome.getThermostatById (h : NexiaHome) (tid : Nat) : Option Thermostat :=
  h.thermostats.find? fun t => t.id == tid

/-- `thermostat.get_zone_ids()`. -/
def Thermostat.getZoneIds (t : Thermostat) : List Nat :=
  t.zones.map Zone.zone_id

/-- `thermostat.get_zone_by_id(zid)`. -/
def Thermostat.getZoneById (t : Thermostat) (zid : Nat) : Option Zone :=
  t.zones.find? fun z => z.zone_id == zid

/-- The `for id in ids: x = lookup(id); ... ` iteration pattern used twice by
`sensor.py` (thermostats of a home, zones of a thermostat): iterate the id
list and look each id back up.  The `none` branch is unreachable when the ids
come from the same list (`lookup` then always succeeds). -/
def iterById {α β : Type} (key : α → Nat) (l : List α) (f : α → List β) : List β :=
  (l.map key).flatMap fun i => ((l.find? fun x => key x == i).map f).getD []

/-- One awaited step of the patched coordinator refresh
`_update_with_roomiq_refresh`. -/
inductive RefreshEvent where
  | loadRequest (tid zid : Nat)
  | warnZoneFailure (tid zid : Nat)
  | sleepSeconds (secs : Nat)
  | callOriginal
deriving DecidableEq, Repr

/-- The events of one zone's turn in the refresh wrapper's loop:
`zone.load_current_sensor_state()` is awaited (the fresh-data request), and
when it raises, the per-zone `except` handler logs a warning and the loop
continues. -/
def zoneRefreshEvents (tid : Nat) (z : Zone) : List RefreshEvent :=
  if z.loadFails then
    [RefreshEvent.loadRequest tid z.zone_id, RefreshEvent.warnZoneFailure tid z.zone_id]
  else
    [RefreshEvent.loadRequest tid z.zone_id]

/-- The fresh-data phase of `_update_with_roomiq_refresh`: request fresh
sensor state from every zone of every thermostat (via the id lists and
by-id lookups of the source), then `await asyncio.sleep(5)`. -/
def roomiqRefreshPhase (home : NexiaHome) : List RefreshEvent :=
  (iterById Thermostat.id home.thermostats fun t =>
    iterById Zone.zone_id t.zones fun z => zoneRefreshEvents t.id z)
  ++ [RefreshEvent.sleepSeconds 5]

/-- `_update_with_roomiq_refresh()`: the trace of awaited events together
with the returned value.  `original` is the value produced by the saved
original `_async_update_data`, which the wrapper calls last and whose result
it returns unchanged. -/
def updateWithRoomiqRefresh {α : Type} (home : NexiaHome) (original : α) :
    List RefreshEvent × α :=
  (roomiqRefreshPhase home ++ [RefreshEvent.callOriginal], original)

/-- The module-level state of `sensor.py`:
`_original_async_setup_entry` and `_injection_complete`.  `F` is the type of
the function objects being saved and swapped. -/
structure InjectState (F : Type) where
  originalSetup : Option F
  injectionComplete : Bool

/-- The sibling `homeassistant.components.nexia.sensor` module:
its `async_setup_entry` attribute and all of its other attributes. -/
structure SensorModule (F : Type) where
  async_setup_entry : F
  others : String → F

/-- `inject_roomiq_sensors(nexia_sensor_module)`: when injection has already
completed it returns at once; otherwise it saves the module's
`async_setup_entry`, replaces it with the wrapper, and marks injection
complete. -/
def inject {F : Type} (wrapper : F) (st : InjectState F) (m : SensorModule F) :
    InjectState F × SensorModule F :=
  if st.injectionComplete then (st, m)
  else (⟨some m.async_setup_entry, true⟩, { m with async_setup_entry := wrapper })

/-- One awaited step of the patched entity setup `_async_setup_entry_wrapper`. -/
inductive SetupEvent where
  | callOriginalSetup
  | sleepHalfSecond
  | addRoomIqSensors
deriving DecidableEq, Repr

/-- `_async_setup_entry_wrapper(hass, config_entry, async_add_entities)`:
call the saved original setup when one is set (`if _original_async_setup_entry:`),
then sleep 0.5 s, then run `async_setup_roomiq_sensors`. -/
def asyncSetupEntryWrapper (originalSet : Bool) : List SetupEvent :=
  (if originalSet then [SetupEvent.callOriginalSetup] else [])
  ++ [SetupEvent.sleepHalfSecond, SetupEvent.addRoomIqSensors]

/-- A `NexiaDataUpdateCoordinator` of the sibling integration: its Python
`id()`, its `_async_update_data` attribute, its `nexia_home`, and all of its
other attributes. -/
structure Coordinator (F : Type) where
  cid : Nat
  updateMethod : F
  nexiaHome : NexiaHome
  others : String → F

/-- The coordinator-wrapping step of `async_setup_roomiq_sensors`: when
`id(coordinator)` is not yet a key of `_original_update_method`, save the
coordinator's `_async_update_data` there and replace the attribute with the
refresh wrapper; otherwise leave both alone. -/
def wrapCoordinatorUpdate {F : Type} (wrapper : F) (saved : List (Nat × F))
    (c : Coordinator F) : List (Nat × F) × Coordinator F :=
  if (saved.lookup c.cid).isSome then (saved, c)
  else ((c.cid, c.updateMethod) :: saved, { c with updateMethod := wrapper })

/-- The observable outcome of one `async_setup_roomiq_sensors` call:
the `_original_update_method` dict afterwards, the coordinator afterwards
(`none` when no coordinator was found), the entity list handed to
`async_add_entities` (`none` when that callback was never invoked), and
whether an exception escaped the function. -/
structure SetupOutcome (F : Type) where
  savedUpdates : List (Nat × F)
  coordinator : Option (Coordinator F)
  addedEntities : Option (List RoomIQEntity)
  raised : Bool

/-- `async_setup_roomiq_sensors(hass, config_entry, async_add_entities)`:
reading `config_entry.runtime_data` may raise (`none` models a config entry
without a usable coordinator there), which the `try/except` turns into an
early return; otherwise the coordinator's update method is wrapped (once),
and the Room IQ entities of every zone of every thermostat of
`coordinator.nexia_home` are created and added. -/
def asyncSetupRoomiqSensors {F : Type} (wrapper : F)
    (runtimeData : Option (Coordinator F)) (saved : List (Nat × F)) :
    SetupOutcome F :=
  match runtimeData with
  | none => ⟨saved, none, none, false⟩
  | some c =>
    let sc := wrapCoordinatorUpdate wrapper saved c
    let entities := iterById Thermostat.id c.nexiaHome.thermostats fun t =>
      iterById Zone.zone_id t.zones fun z => createRoomIQSensors z
    ⟨sc.1, some sc.2, some entities, false⟩

/-- One awaited step of the start-up hook `async_setup` in `__init__.py`. -/
inductive HookEvent where
  | sleepStartup
  | injectSetup
  | reloadEntry (eid : Nat)
deriving DecidableEq, Repr

/-- The `for entry in nexia_entries: await hass.config_entries.async_reload
(entry.entry_id)` loop: each reload is awaited in order; a reload that raises
aborts the loop (its exception escapes to the surrounding `except`, which
makes `async_setup` return `False`).  Returns the reload events and whether
the loop finished without an exception. -/
def reloadAll : List Nat → (Nat → Bool) → List HookEvent × Bool
  | [], _ => ([], true)
  | e :: rest, reloadFails =>
    if reloadFails e then ([HookEvent.reloadEntry e], false)
    else
      let r := reloadAll rest reloadFails
      (HookEvent.reloadEntry e :: r.1, r.2)

/-- The outcome of one `async_setup(hass, config)` call: the awaited events,
the returned boolean, and the module-level injection state and sibling sensor
module afterwards. -/
structure HookOutcome (F : Type) where
  events : List HookEvent
  result : Bool
  injectState : InjectState F
  module : SensorModule F

/-- `async_setup(hass, config)` of `__init__.py`: sleep 3 s, then inside
`try`: if there are no Nexia config entries return `False`; otherwise import
the sibling sensor module, run `inject_roomiq_sensors` on it, and reload
every Nexia entry, returning `True`; any exception raised inside the `try`
(modelled: a failing reload) is caught and turned into `return False`.
`entries` is the list of Nexia config entry ids. -/
def asyncSetupHook {F : Type} (wrapper : F) (entries : List Nat)
    (reloadFails : Nat → Bool) (st : InjectState F) (m : SensorModule F) :
    HookOutcome F :=
  if entries.isEmpty then ⟨[HookEvent.sleepStartup], false, st, m⟩
  else
    let sm := inject wrapper st m
    let r := reloadAll entries reloadFails
    ⟨HookEvent.sleepStartup :: HookEvent.injectSetup :: r.1, r.2, sm.1, sm.2⟩

/-- The `for sensor in sensors` search inside `_get_sensor_data`: the first
record whose `id` equals the entity's stored `_sensor_id`; a non-dict record
on the way raises (`.get` on it). -/
def searchSensors (sid : Json) : List Json → Except String (Option Json)
  | [] => .ok none
  | s :: rest =>
    match s with
    | .obj skvs =>
      if pyEq (pyGet skvs "id") sid then .ok (some s)
      else searchSensors sid rest
    | _ => .error "AttributeError: no attribute get"

/-- The `for feature in features` loop inside `_get_sensor_data`: unlike
`_create_roomiq_sensors` it does not `break` at the first
`room_iq_sensors` feature — when the wanted id is not among that feature's
sensors the outer loop continues with the remaining features. -/
def searchFeatures (sid : Json) : List Json → Except String (Option Json)
  | [] => .ok none
  | f :: rest =>
    match f with
    | .obj fkvs =>
      if pyEq (pyGet fkvs "name") (.str "room_iq_sensors") then
        match iterElems (pyGetD fkvs "sensors" (.arr [])) with
        | .error e => .error e
        | .ok selems =>
          match searchSensors sid selems with
          | .error e => .error e
          | .ok (some s) => .ok (some s)
          | .ok none => searchFeatures sid rest
      else searchFeatures sid rest
    | _ => .error "AttributeError: no attribute get"

/-- `NexiaRoomIQSensor._get_sensor_data()`: walk the zone's current
`_zone_json` for the record whose `id` matches `_sensor_id`; any exception
on the way is caught (debug-logged) and turned into `None`. -/
def getSensorData (zoneJson : Option Json) (sid : Json) : Option Json :=
  match zoneJson with
  | none => none
  | some zd =>
    match zd with
    | .obj zkvs =>
      match iterElems (pyGetD zkvs "features" (.arr [])) with
      | .error _ => none
      | .ok felems =>
        match searchFeatures sid felems with
        | .error _ => none
        | .ok r => r
    | _ => none

/-- The `native_value` property: the metric of the entity's type when its
validity flag is truthy, Python `None` (= `Json.null`) otherwise; the
`weight` metric defaults to `0.0` and has no validity flag. -/
def nativeValue (zoneJson : Option Json) (sid : Json) (stype : SensorType) : Json :=
  match getSensorData zoneJson sid with
  | none => .null
  | some sd =>
    match sd with
    | .obj skvs =>
      match stype with
      | .temperature =>
        if truthy (pyGetD skvs "temperature_valid" (.bool false)) then
          pyGet skvs "temperature"
        else .null
      | .humidity =>
        if truthy (pyGetD skvs "humidity_valid" (.bool false)) then
          pyGet skvs "humidity"
        else .null
      | .battery =>
        if truthy (pyGetD skvs "battery_valid" (.bool false)) then
          pyGet skvs "battery_level"
        else .null
      | .weight => pyGetD skvs "weight" (.num 0)
    | _ => .null

/-- The `extra_state_attributes` property: the `attrs` dict in its insertion
order (empty when the record is missing). -/
def extraStateAttributes (zoneJson : Option Json) (sid sname : Json)
    (stype : SensorType) : List (String × Json) :=
  match getSensorData zoneJson sid with
  | none => []
  | some sd =>
    match sd with
    | .obj skvs =>
      [("sensor_id", sid), ("sensor_name", sname),
       ("sensor_type", pyGet skvs "type"),
       ("serial_number", pyGet skvs "serial_number"),
       ("weight", pyGetD skvs "weight" (.num 0))]
      ++ (if truthy (pyGetD skvs "has_online" (.bool false)) then
            [("connected", pyGetD skvs "connected" (.bool false))] else [])
      ++ (if truthy (pyGetD skvs "has_battery" (.bool false)) then
            (if truthy (pyGetD skvs "battery_valid" (.bool false)) then
              [("battery_level", pyGet skvs "battery_level"),
               ("battery_low", pyGetD skvs "battery_low" (.bool false))]
             else [])
          else [])
      ++ (if stype ≠ SensorType.battery then
            (if truthy (pyGetD skvs "temperature_valid" (.bool false)) then
              [("temperature", pyGet skvs "temperature")] else [])
            ++ (if truthy (pyGetD skvs "humidity_valid" (.bool false)) then
              [("humidity", pyGet skvs "humidity")] else [])
          else [])
    | _ => []

/-- The `available` property: `False` when the parent
`CoordinatorEntity.available` (`superAvail`, the coordinator's last-update
success) is `False` or the record is missing; `False` for a wireless record
(`has_online` truthy) that is not `connected`; then `True` for weight
entities, and the respective validity flags for the other types. -/
def availableProp (superAvail : Bool) (zoneJson : Option Json) (sid : Json)
    (stype : SensorType) : Bool :=
  if !superAvail then false
  else
    match getSensorData zoneJson sid with
    | none => false
    | some sd =>
      match sd with
      | .obj skvs =>
        if truthy (pyGetD skvs "has_online" (.bool false))
            && !truthy (pyGetD skvs "connected" (.bool false)) then false
        else
          match stype with
          | .weight => true
          | .temperature => truthy (pyGetD skvs "temperature_valid" (.bool false))
          | .humidity => truthy (pyGetD skvs "humidity_valid" (.bool false))
          | .battery =>
            truthy (pyGetD skvs "battery_valid" (.bool false))
              && truthy (pyGetD skvs "has_battery" (.bool false))
      | _ => false

/-- The zone object a `NexiaRoomIQSensor` holds a reference to, as the three
property getters see it: just its `_zone_json` blob.  The getters receive it
and give it back, so that mutation (there is none) would be visible. -/
structure ZoneObj where
  zone_json : Option Json

/-- `native_value` as a state-passing method on the shared zone object:
the source reads `self._zone` and never writes, so the returned zone is the
argument. -/
def nativeValueM (z : ZoneObj) (sid : Json) (stype : SensorType) :
    Json × ZoneObj :=
  (nativeValue z.zone_json sid stype, z)

/-- `extra_state_attributes` as a state-passing method on the zone object. -/
def extraStateAttributesM (z : ZoneObj) (sid sname : Json) (stype : SensorType) :
    List (String × Json) × ZoneObj :=
  (extraStateAttributes z.zone_json sid sname stype, z)

/-- `available` as a state-passing method on the zone object. -/
def availableM (superAvail : Bool) (z : ZoneObj) (sid : Json)
    (stype : SensorType) : Bool × ZoneObj :=
  (availableProp superAvail z.zone_json sid stype, z)

/-- The events of the wrapper's added fresh-data loop (as opposed to the
final sleep and the call to the saved original). -/
def addedRefreshEvent : RefreshEvent → Bool
  | .loadRequest _ _ => true
  | .warnZoneFailure _ _ => true
  | _ => false

/-- A well-formed sensor record: id 7, name `"Bedroom"`, valid temperature
and humidity, a valid battery, online and connected. -/
def sampleRecord : Json :=
  .obj [("id", .num 7), ("name", .str "Bedroom"),
        ("type", .str "930"), ("serial_number", .str "SN1"),
        ("temperature_valid", .bool true), ("temperature", .num 72),
        ("humidity_valid", .bool true), ("humidity", .num 45),
        ("has_battery", .bool true), ("battery_valid", .bool true),
        ("battery_level", .num 80), ("battery_low", .bool false),
        ("has_online", .bool true), ("connected", .bool true),
        ("weight", .num 1)]

/-- A record without a truthy `name`. -/
def namelessRecord : Json :=
  .obj [("id", .num 9), ("name", .str ""), ("temperature_valid", .bool true)]

/-- A feature of the zone blob that is not `room_iq_sensors`. -/
def sampleOtherFeature : Json :=
  .obj [("name", .str "thermostat_mode"), ("mode", .str "auto")]

/-- The entries of a `room_iq_sensors` feature carrying `sampleRecord` and
`namelessRecord`. -/
def sampleRoomIqKvs : List (String × Json) :=
  [("name", .str "room_iq_sensors"),
   ("sensors", .arr [sampleRecord, namelessRecord])]

/-- A zone blob whose `room_iq_sensors` feature carries `sampleRecord` and
`namelessRecord`. -/
def sampleZoneJson : Json :=
  .obj [("features", .arr [sampleOtherFeature, .obj sampleRoomIqKvs])]

/-- A zone holding `sampleZoneJson`. -/
def sampleZone : Zone := ⟨5, "Main floor", some sampleZoneJson, false⟩

/-- A zone blob whose sensor list holds a well-formed record followed by a
non-dict record (on which `sensor_data.get` raises). -/
def faultyZoneJson : Json :=
  .obj [("features",
    .arr [.obj [("name", .str "room_iq_sensors"),
                ("sensors", .arr [sampleRecord, .str "junk"])]])]

/-- A zone holding `faultyZoneJson`. -/
def faultyZone : Zone := ⟨6, "Upstairs", some faultyZoneJson, false⟩

/-- A zone blob holding a single record that is present, not wireless
(`has_online` absent), and has a weight. -/
def plainZoneJson : Json :=
  .obj [("features",
    .arr [.obj [("name", .str "room_iq_sensors"),
                ("sensors", .arr [.obj [("id", .num 7), ("name", .str "S"),
                                        ("weight", .num 1)]])]])]

/-- A home with two thermostats and three zones, one of which fails its
fresh-data request. -/
def sampleHome : NexiaHome :=
  ⟨[⟨1, [⟨10, "Den", none, false⟩, ⟨11, "Loft", none, true⟩]⟩,
    ⟨2, [⟨20, "Attic", none, false⟩]⟩]⟩

/-- A home with one thermostat and one zone. -/
def tinyHome : NexiaHome := ⟨[⟨1, [⟨10, "Den", none, false⟩]⟩]⟩

theorem flatMap_congr {α β : Type} {l : List α} {f g : α → List β}
    (h : ∀ a ∈ l, f a = g a) : l.flatMap f = l.flatMap g := by
  induction l with
  | nil => rfl
  | cons a l ih =>
    rw [List.flatMap_cons, List.flatMap_cons, h a (by simp),
      ih fun x hx => h x (by simp [hx])]

theorem iterById_eq_flatMap {α β : Type} (key : α → Nat) (f : α → List β)
    (l : List α) (h : (l.map key).Nodup) : iterById key l f = l.flatMap f := by
  induction l with
  | nil => rfl
  | cons a l ih =>
    rw [List.map_cons, List.nodup_cons] at h
    have h1 : ((a :: l).find? fun x => key x == key a) = some a :=
      List.find?_cons_of_pos _ (by simp)
    have h2 : ∀ i ∈ l.map key,
        ((((a :: l).find? fun x => key x == i).map f).getD []) =
          (((l.find? fun x => key x == i).map f).getD []) := by
      intro i hi
      have hne : key a ≠ i := fun he => h.1 (he ▸ hi)
      rw [List.find?_cons_of_neg _ (by simpa using hne)]
    calc iterById key (a :: l) f
        = (((a :: l).find? fun x => key x == key a).map f).getD []
            ++ (l.map key).flatMap
              (fun i => (((a :: l).find? fun x => key x == i).map f).getD []) := by
          simp [iterById, List.flatMap_cons]
      _ = f a ++ iterById key l f := by
          rw [h1, flatMap_congr h2]; rfl
      _ = f a ++ l.flatMap f := by rw [ih h.2]
      _ = (a :: l).flatMap f := (List.flatMap_cons ..).symm

theorem mem_iterById {α β : Type} {key : α → Nat} {l : List α} {f : α → List β}
    {b : β} (h : b ∈ iterById key l f) : ∃ x ∈ l, b ∈ f x := by
  unfold iterById at h
  rw [List.mem_flatMap] at h
  obtain ⟨i, _, hb⟩ := h
  cases hfind : l.find? fun x => key x == i with
  | none => rw [hfind] at hb; cases hb
  | some x =>
    rw [hfind] at hb
    exact ⟨x, List.mem_of_find?_eq_some hfind, by simpa using hb⟩

theorem count_flatMap_eq_zero {α β : Type} [DecidableEq β] {l : List α}
    {f : α → List β} {b : β} (h : ∀ x ∈ l, (f x).count b = 0) :
    (l.flatMap f).count b = 0 := by
  induction l with
  | nil => rfl
  | cons a l ih =>
    rw [List.flatMap_cons, List.count_append, h a (by simp),
      ih fun x hx => h x (by simp [hx])]

theorem count_flatMap_eq_one {α β : Type} [DecidableEq β] {l : List α}
    {f : α → List β} {b : β} {x : α} (hnd : l.Nodup) (hx : x ∈ l)
    (h1 : (f x).count b = 1) (h0 : ∀ y ∈ l, y ≠ x → (f y).count b = 0) :
    (l.flatMap f).count b = 1 := by
  induction l with
  | nil => cases hx
  | cons a l ih =>
    rw [List.flatMap_cons, List.count_append]
    rw [List.nodup_cons] at hnd
    rcases List.mem_cons.mp hx with rfl | hx'
    · rw [h1, count_flatMap_eq_zero
        fun y hy => h0 y (by simp [hy]) fun he => hnd.1 (he ▸ hy)]
    · rw [h0 a (by simp) fun he => hnd.1 (he ▸ hx'),
        ih hnd.2 hx' fun y hy hyx => h0 y (by simp [hy]) hyx]

theorem addedRefreshEvent_of_mem_zone {tid : Nat} {z : Zone} {e : RefreshEvent}
    (h : e ∈ zoneRefreshEvents tid z) : addedRefreshEvent e = true := by
  unfold zoneRefreshEvents at h
  split at h
  · rcases List.mem_cons.mp h with rfl | h2
    · rfl
    · rcases List.mem_singleton.mp h2 with rfl
      rfl
  · rcases List.mem_singleton.mp h with rfl
    rfl

theorem addedRefreshEvent_of_mem_loop {home : NexiaHome} {e : RefreshEvent}
    (h : e ∈ iterById Thermostat.id home.thermostats fun t =>
      iterById Zone.zone_id t.zones fun z => zoneRefreshEvents t.id z) :
    addedRefreshEvent e = true := by
  obtain ⟨t, _, h2⟩ := mem_iterById h
  obtain ⟨z, _, h3⟩ := mem_iterById h2
  exact addedRefreshEvent_of_mem_zone h3

theorem findRoomIqFeature_name {fs : List Json} {fkvs : List (String × Json)}
    (h : findRoomIqFeature fs = .ok (some (.obj fkvs))) :
    pyEq (pyGet fkvs "name") (.str "room_iq_sensors") = true := by
  induction fs with
  | nil => cases h
  | cons f rest ih =>
    cases f with
    | obj gkvs =>
      simp only [findRoomIqFeature] at h
      split at h
      · rename_i hp
        simp only [Except.ok.injEq, Option.some.injEq, Json.obj.injEq] at h
        subst h
        exact hp
      · exact ih h
    | null => exact Except.noConfusion (by simpa only [findRoomIqFeature] using h)
    | bool b => exact Except.noConfusion (by simpa only [findRoomIqFeature] using h)
    | num q => exact Except.noConfusion (by simpa only [findRoomIqFeature] using h)
    | str s => exact Except.noConfusion (by simpa only [findRoomIqFeature] using h)
    | arr xs => exact Except.noConfusion (by simpa only [findRoomIqFeature] using h)

theorem truthy_of_roomiq_name {fkvs : List (String × Json)}
    (h : pyEq (pyGet fkvs "name") (.str "room_iq_sensors") = true) :
    truthy (.obj fkvs) = true := by
  cases fkvs with
  | nil => exact absurd h (by decide)
  | cons a l => rfl

/-- C1: for every zone JSON blob whose `features` list contains a feature
named `room_iq_sensors` with a non-empty `sensors` list,
`_create_roomiq_sensors` processes exactly the records of that list; for
each record with a truthy `id` and a truthy `name` it creates a temperature
entity iff `temperature_valid` is truthy, a humidity entity iff
`humidity_valid` is truthy, a battery entity iff both `has_battery` and
`battery_valid` are truthy, and always exactly one weight entity; a record
missing a truthy `id` or `name` yields no entities; a zone without the
feature, and a zone without zone JSON, yield the empty list. -/
theorem c1_create_roomiq_sensors (z : Zone) (zkvs : List (String × Json))
    (felems : List Json) (fkvs : List (String × Json)) (selems : List Json)
    (hz : z.zone_json = some (.obj zkvs))
    (hfeat : pyGetD zkvs "features" (.arr []) = .arr felems)
    (hfind : findRoomIqFeature felems = .ok (some (.obj fkvs)))
    (hsens : pyGetD fkvs "sensors" (.arr []) = .arr selems)
    (hne : selems ≠ []) :
    createRoomIQSensors z = (selems.map (processSensor z.zone_id)).flatMap Prod.fst
    ∧ (∀ skvs : List (String × Json),
        truthy (pyGet skvs "id") = true → truthy (pyGet skvs "name") = true →
          ((processSensor z.zone_id (.obj skvs)).1.filter
              (fun e => e.sensor_type == SensorType.temperature) =
            (if truthy (pyGetD skvs "temperature_valid" (.bool false)) then
              [⟨z.zone_id, pyGet skvs "id", pyGet skvs "name", .temperature⟩] else []))
          ∧ ((processSensor z.zone_id (.obj skvs)).1.filter
              (fun e => e.sensor_type == SensorType.humidity) =
            (if truthy (pyGetD skvs "humidity_valid" (.bool false)) then
              [⟨z.zone_id, pyGet skvs "id", pyGet skvs "name", .humidity⟩] else []))
          ∧ ((processSensor z.zone_id (.obj skvs)).1.filter
              (fun e => e.sensor_type == SensorType.battery) =
            (if truthy (pyGetD skvs "has_battery" (.bool false))
                && truthy (pyGetD skvs "battery_valid" (.bool false)) then
              [⟨z.zone_id, pyGet skvs "id", pyGet skvs "name", .battery⟩] else []))
          ∧ ((processSensor z.zone_id (.obj skvs)).1.filter
              (fun e => e.sensor_type == SensorType.weight) =
            [⟨z.zone_id, pyGet skvs "id", pyGet skvs "name", .weight⟩]))
    ∧ (∀ skvs : List (String × Json),
        truthy (pyGet skvs "id") = false ∨ truthy (pyGet skvs "name") = false →
          (processSensor z.zone_id (.obj skvs)).1 = [])
    ∧ (∀ z' : Zone, z'.zone_json = none → createRoomIQSensors z' = [])
    ∧ (∀ (z' : Zone) (zkvs' : List (String × Json)) (felems' : List Json),
        z'.zone_json = some (.obj zkvs') →
        pyGetD zkvs' "features" (.arr []) = .arr felems' →
        findRoomIqFeature felems' = .ok none → createRoomIQSensors z' = []) := by
  have htruthy : truthy (.obj fkvs) = true :=
    truthy_of_roomiq_name (findRoomIqFeature_name hfind)
  have hsel : truthy (.arr selems) = true := by
    cases selems with
    | nil => exact absurd rfl hne
    | cons a l => rfl
  refine ⟨?_, ?_, ?_, ?_, ?_⟩
  · simp only [createRoomIQSensors, createRoomIQSensorsFull, hz, hfeat, iterElems,
      hfind, htruthy, Bool.not_true, Bool.false_eq_true, if_false, hsens, hsel]
  · intro skvs hid hname
    refine ⟨?_, ?_, ?_, ?_⟩ <;>
      simp only [processSensor, hid, hname, Bool.not_true, Bool.or_self,
        Bool.false_eq_true, if_false] <;>
      split_ifs <;> rfl
  · intro skvs h
    rcases h with h | h <;>
      simp [processSensor, h]
  · intro z' h
    simp [createRoomIQSensors, createRoomIQSensorsFull, h]
  · intro z' zkvs' felems' h1 h2 h3
    simp [createRoomIQSensors, createRoomIQSensorsFull, h1, h2, iterElems, h3]

/-- C1 witness: the theorem applied to `sampleZone`, whose blob carries one
well-formed and one nameless record. -/
theorem c1_witness :
    createRoomIQSensors sampleZone =
      ([sampleRecord, namelessRecord].map (processSensor sampleZone.zone_id)).flatMap
        Prod.fst :=
  (c1_create_roomiq_sensors sampleZone
    [("features", .arr [sampleOtherFeature, .obj sampleRoomIqKvs])]
    [sampleOtherFeature, .obj sampleRoomIqKvs] sampleRoomIqKvs
    [sampleRecord, namelessRecord] rfl rfl rfl rfl (by simp)).1

/-- C2: on every invocation, the patched data refresh performs exactly one
fixed delay-then-retry sequence: it requests fresh sensor state exactly once
from every zone of every thermostat, sleeps exactly once (for the fixed 5
seconds), then calls the original coordinator update method exactly once and
last; before the final sleep/original-call pair only fresh-data-phase events
occur, so nothing loops or retries.  (The thermostat and zone id lists are
assumed duplicate-free, as the sibling library's id-keyed collections make
them.) -/
theorem c2_refresh_sequence {α : Type} (home : NexiaHome) (orig : α)
    (hids : (home.thermostats.map Thermostat.id).Nodup)
    (hzids : ∀ t ∈ home.thermostats, (t.zones.map Zone.zone_id).Nodup) :
    (∀ t ∈ home.thermostats, ∀ z ∈ t.zones,
        (updateWithRoomiqRefresh home orig).1.count
          (RefreshEvent.loadRequest t.id z.zone_id) = 1)
    ∧ (updateWithRoomiqRefresh home orig).1.count (RefreshEvent.sleepSeconds 5) = 1
    ∧ (∀ n, RefreshEvent.sleepSeconds n ∈ (updateWithRoomiqRefresh home orig).1 →
        n = 5)
    ∧ (updateWithRoomiqRefresh home orig).1.count RefreshEvent.callOriginal = 1
    ∧ (∃ pre, (updateWithRoomiqRefresh home orig).1 =
          pre ++ [RefreshEvent.sleepSeconds 5, RefreshEvent.callOriginal]
        ∧ ∀ e ∈ pre, addedRefreshEvent e = true) := by
  obtain ⟨L, hLdef⟩ : ∃ L, L = iterById Thermostat.id home.thermostats fun t =>
      iterById Zone.zone_id t.zones fun z => zoneRefreshEvents t.id z := ⟨_, rfl⟩
  have hevs : (updateWithRoomiqRefresh home orig).1 =
      L ++ [RefreshEvent.sleepSeconds 5, RefreshEvent.callOriginal] := by
    rw [hLdef]
    simp [updateWithRoomiqRefresh, roomiqRefreshPhase]
  have hLflat : L = home.thermostats.flatMap fun t =>
      t.zones.flatMap fun z => zoneRefreshEvents t.id z := by
    rw [hLdef, iterById_eq_flatMap _ _ _ hids]
    exact flatMap_congr fun t ht => iterById_eq_flatMap _ _ _ (hzids t ht)
  have hmemL : ∀ e ∈ L, addedRefreshEvent e = true := by
    intro e he
    rw [hLdef] at he
    exact addedRefreshEvent_of_mem_loop he
  have hsleepL : ∀ n, RefreshEvent.sleepSeconds n ∉ L := by
    intro n hmem
    have := hmemL _ hmem
    simp [addedRefreshEvent] at this
  have hcallL : RefreshEvent.callOriginal ∉ L := by
    intro hmem
    have := hmemL _ hmem
    simp [addedRefreshEvent] at this
  refine ⟨?_, ?_, ?_, ?_, L, hevs, hmemL⟩
  · intro t ht z hz
    rw [hevs, List.count_append]
    have hsuffix : ([RefreshEvent.sleepSeconds 5, RefreshEvent.callOriginal]).count
        (RefreshEvent.loadRequest t.id z.zone_id) = 0 := by
      simp [List.count_cons]
    rw [hsuffix, Nat.add_zero, hLflat]
    refine count_flatMap_eq_one (List.Nodup.of_map _ hids) ht ?_ ?_
    · refine count_flatMap_eq_one (List.Nodup.of_map _ (hzids t ht)) hz ?_ ?_
      · unfold zoneRefreshEvents
        split <;> simp [List.count_cons]
      · intro z' hz' hne
        have hzne : z'.zone_id ≠ z.zone_id := fun he =>
          hne (List.inj_on_of_nodup_map (hzids t ht) hz' hz he)
        unfold zoneRefreshEvents
        split <;> simp [List.count_cons, hzne]
    · intro t' ht' hne
      have htne : t'.id ≠ t.id := fun he =>
        hne (List.inj_on_of_nodup_map hids ht' ht he)
      refine count_flatMap_eq_zero ?_
      intro z' hz'
      unfold zoneRefreshEvents
      split <;> simp [List.count_cons, htne]
  · rw [hevs, List.count_append, List.count_eq_zero.mpr (hsleepL 5)]
    rfl
  · intro n hn
    rw [hevs, List.mem_append] at hn
    rcases hn with hn | hn
    · exact absurd hn (hsleepL n)
    · rcases List.mem_cons.mp hn with he | hn2
      · cases he
        rfl
      · rcases List.mem_singleton.mp hn2 with he
        cases he
  · rw [hevs, List.count_append, List.count_eq_zero.mpr hcallL]
    rfl

/-- C2 witness: the theorem applied to `sampleHome` (two thermostats, three
zones, one of which fails its fresh-data request). -/
theorem c2_witness :
    (∀ t ∈ sampleHome.thermostats, ∀ z ∈ t.zones,
        (updateWithRoomiqRefresh sampleHome 0).1.count
          (RefreshEvent.loadRequest t.id z.zone_id) = 1)
    ∧ (updateWithRoomiqRefresh sampleHome 0).1.count
        (RefreshEvent.sleepSeconds 5) = 1 :=
  ⟨(c2_refresh_sequence sampleHome 0 (by decide) (by decide)).1,
   (c2_refresh_sequence sampleHome 0 (by decide) (by decide)).2.1⟩

/-- C3: the injection only swaps the two intended functions.
`inject_roomiq_sensors` replaces the sibling sensor module's
`async_setup_entry` with the wrapper and leaves every other module attribute
unchanged; the coordinator-wrapping step replaces a not-yet-wrapped
coordinator's `_async_update_data` with the refresh wrapper and leaves every
other coordinator attribute (`id`, `nexia_home`, the rest) unchanged. -/
theorem c3_patches_exactly_two {F : Type} (w wu : F) (st : InjectState F)
    (m : SensorModule F) (saved : List (Nat × F)) (c : Coordinator F) :
    (inject w st m).2.others = m.others
    ∧ (st.injectionComplete = false → (inject w st m).2.async_setup_entry = w)
    ∧ ((wrapCoordinatorUpdate wu saved c).2.others = c.others
       ∧ (wrapCoordinatorUpdate wu saved c).2.cid = c.cid
       ∧ (wrapCoordinatorUpdate wu saved c).2.nexiaHome = c.nexiaHome)
    ∧ (saved.lookup c.cid = none →
        (wrapCoordinatorUpdate wu saved c).2.updateMethod = wu) := by
  refine ⟨?_, ?_, ⟨?_, ?_, ?_⟩, ?_⟩
  · unfold inject
    split <;> rfl
  · intro h
    simp [inject, h]
  · unfold wrapCoordinatorUpdate
    split <;> rfl
  · unfold wrapCoordinatorUpdate
    split <;> rfl
  · unfold wrapCoordinatorUpdate
    split <;> rfl
  · intro h
    simp [wrapCoordinatorUpdate, h]

/-- C3 witness: the theorem applied to a fresh module state and an unwrapped
coordinator over `Nat`-coded function objects. -/
theorem c3_witness :
    (inject 1 ⟨none, false⟩ (⟨0, fun _ => 0⟩ : SensorModule Nat)).2.async_setup_entry = 1
    ∧ (wrapCoordinatorUpdate 2 []
        (⟨1, 5, tinyHome, fun _ => 0⟩ : Coordinator Nat)).2.updateMethod = 2 :=
  ⟨(c3_patches_exactly_two 1 2 ⟨none, false⟩ ⟨0, fun _ => 0⟩ []
      ⟨1, 5, tinyHome, fun _ => 0⟩).2.1 rfl,
   (c3_patches_exactly_two 1 2 ⟨none, false⟩ ⟨0, fun _ => 0⟩ []
      ⟨1, 5, tinyHome, fun _ => 0⟩).2.2.2 rfl⟩

/-- C8: `inject_roomiq_sensors` is idempotent.  Starting from the initial
module state, a second call leaves both the saved original and the module
unchanged; the saved original is the module's pre-injection
`async_setup_entry` and never the wrapper itself; and one run of the setup
wrapper calls the saved original at most once. -/
theorem c8_inject_idempotent {F : Type} (w : F) (m : SensorModule F)
    (hw : m.async_setup_entry ≠ w) :
    inject w (inject w ⟨none, false⟩ m).1 (inject w ⟨none, false⟩ m).2 =
      inject w ⟨none, false⟩ m
    ∧ (inject w ⟨none, false⟩ m).1.originalSetup = some m.async_setup_entry
    ∧ (inject w ⟨none, false⟩ m).1.originalSetup ≠ some w
    ∧ ∀ b, (asyncSetupEntryWrapper b).count SetupEvent.callOriginalSetup ≤ 1 := by
  refine ⟨?_, rfl, ?_, ?_⟩
  · simp [inject]
  · simp [inject]
    exact hw
  · intro b
    cases b <;> decide

/-- C8 witness: the theorem applied to a module whose setup function (coded
`1`) differs from the wrapper (coded `0`). -/
theorem c8_witness :
    inject 0 (inject 0 ⟨none, false⟩ (⟨1, fun _ => 2⟩ : SensorModule Nat)).1
        (inject 0 ⟨none, false⟩ (⟨1, fun _ => 2⟩ : SensorModule Nat)).2 =
      inject 0 ⟨none, false⟩ (⟨1, fun _ => 2⟩ : SensorModule Nat)
    ∧ (inject 0 ⟨none, false⟩
        (⟨1, fun _ => 2⟩ : SensorModule Nat)).1.originalSetup ≠ some 0 :=
  ⟨(c8_inject_idempotent 0 ⟨1, fun _ => 2⟩ (by decide)).1,
   (c8_inject_idempotent 0 ⟨1, fun _ => 2⟩ (by decide)).2.2.1⟩

theorem refresh_callOriginal_spec {α : Type} (home : NexiaHome) (orig : α) :
    (updateWithRoomiqRefresh home orig).1.count RefreshEvent.callOriginal = 1
    ∧ (updateWithRoomiqRefresh home orig).1.getLast? =
        some RefreshEvent.callOriginal := by
  have hcall : RefreshEvent.callOriginal ∉
      iterById Thermostat.id home.thermostats fun t =>
        iterById Zone.zone_id t.zones fun z => zoneRefreshEvents t.id z := by
    intro hmem
    have := addedRefreshEvent_of_mem_loop hmem
    simp [addedRefreshEvent] at this
  constructor
  · simp [updateWithRoomiqRefresh, roomiqRefreshPhase, List.count_append,
      List.count_eq_zero.mpr hcall]
  · simp [updateWithRoomiqRefresh, List.getLast?_append]

/-- C9: the wrapped coordinator refresh is result-equivalent to the
original: whatever the home looks like (including zones whose fresh-data
request raises, which the wrapper catches), the wrapper returns exactly the
original update method's result, and the original is called exactly once,
as the final awaited step. -/
theorem c9_result_equivalence {α : Type} (home : NexiaHome) (orig : α) :
    (updateWithRoomiqRefresh home orig).2 = orig
    ∧ (updateWithRoomiqRefresh home orig).1.count RefreshEvent.callOriginal = 1
    ∧ (updateWithRoomiqRefresh home orig).1.getLast? =
        some RefreshEvent.callOriginal :=
  ⟨rfl, (refresh_callOriginal_spec home orig).1, (refresh_callOriginal_spec home orig).2⟩

/-- C4 counterexample: the claim "in every wrapped function the original is
invoked before any of the wrapper's added behaviour" is false for the
patched data refresh: on a home with one thermostat and one zone the very
first awaited event is the wrapper's added fresh-data request, not the call
of the original, which only happens afterwards. -/
theorem c4_counterexample :
    (updateWithRoomiqRefresh tinyHome 0).1.head? =
      some (RefreshEvent.loadRequest 1 10)
    ∧ addedRefreshEvent (RefreshEvent.loadRequest 1 10) = true
    ∧ (updateWithRoomiqRefresh tinyHome 0).1.head? ≠ some RefreshEvent.callOriginal
    ∧ RefreshEvent.callOriginal ∈ (updateWithRoomiqRefresh tinyHome 0).1 := by
  refine ⟨rfl, rfl, ?_, ?_⟩ <;> decide

/-- C4 amended: the ordering differs per wrapper.  The patched entity setup
calls the original first (its first awaited step, once) before its added
behaviour; the patched data refresh instead performs its added fresh-data
phase first and calls the original exactly once, as its last awaited step. -/
theorem c4_wrapper_ordering :
    (asyncSetupEntryWrapper true).head? = some SetupEvent.callOriginalSetup
    ∧ (asyncSetupEntryWrapper true).count SetupEvent.callOriginalSetup = 1
    ∧ ∀ {α : Type} (home : NexiaHome) (orig : α),
        (updateWithRoomiqRefresh home orig).1.getLast? =
          some RefreshEvent.callOriginal
        ∧ (updateWithRoomiqRefresh home orig).1.count RefreshEvent.callOriginal = 1 :=
  ⟨rfl, by decide, fun home orig =>
    ⟨(refresh_callOriginal_spec home orig).2, (refresh_callOriginal_spec home orig).1⟩⟩

/-- C5 counterexample: the claim "when an error occurs the result delivered
is the empty list of entities" is false: on `faultyZone` (one well-formed
record followed by a non-dict record) an exception is caught by the
per-record handler, yet the four entities of the well-formed record are
still returned. -/
theorem c5_counterexample :
    (createRoomIQSensorsFull faultyZone).2 = true
    ∧ createRoomIQSensors faultyZone ≠ [] :=
  ⟨rfl, List.length_pos.mp (by
    rw [show (createRoomIQSensors faultyZone).length = 4 from rfl]
    omega)⟩

/-- C5 amended: neither `_create_roomiq_sensors` nor
`async_setup_roomiq_sensors` propagates an exception — every failure is
caught and logged — but a failure does not always yield empty results: a
missing coordinator aborts setup with no entities delivered; a zone whose
blob is `None` or not a dict, or whose `features` value is not iterable,
yields no entities for that zone; and a faulty (non-dict) sensor record is
skipped while the entities of the other records are still delivered, so the
result can be a non-empty partial list. -/
theorem c5_error_handling {F : Type} (w : F) (saved : List (Nat × F)) :
    (asyncSetupRoomiqSensors w none saved).raised = false
    ∧ (asyncSetupRoomiqSensors w none saved).addedEntities = none
    ∧ (∀ c : Coordinator F, (asyncSetupRoomiqSensors w (some c) saved).raised = false)
    ∧ (∀ z : Zone, z.zone_json = none → createRoomIQSensors z = [])
    ∧ (∀ (z : Zone) (j : Json), z.zone_json = some j → (∀ kvs, j ≠ .obj kvs) →
        createRoomIQSensors z = [])
    ∧ (∀ (z : Zone) (zkvs : List (String × Json)) (e : String),
        z.zone_json = some (.obj zkvs) →
        iterElems (pyGetD zkvs "features" (.arr [])) = .error e →
        createRoomIQSensors z = [])
    ∧ (∀ (zid : Nat) (sd : Json), (processSensor zid sd).2 = true →
        (processSensor zid sd).1 = []) := by
  refine ⟨rfl, rfl, fun c => rfl, ?_, ?_, ?_, ?_⟩
  · intro z h
    simp [createRoomIQSensors, createRoomIQSensorsFull, h]
  · intro z j h hobj
    cases j with
    | obj kvs => exact absurd rfl (hobj kvs)
    | null => simp [createRoomIQSensors, createRoomIQSensorsFull, h]
    | bool b => simp [createRoomIQSensors, createRoomIQSensorsFull, h]
    | num q => simp [createRoomIQSensors, createRoomIQSensorsFull, h]
    | str s => simp [createRoomIQSensors, createRoomIQSensorsFull, h]
    | arr xs => simp [createRoomIQSensors, createRoomIQSensorsFull, h]
  · intro z zkvs e h1 h2
    simp [createRoomIQSensors, createRoomIQSensorsFull, h1, h2]
  · intro zid sd h
    cases sd with
    | obj skvs =>
      exfalso
      simp only [processSensor] at h
      split at h <;> simp at h
    | null => rfl
    | bool b => rfl
    | num q => rfl
    | str s => rfl
    | arr xs => rfl

/-- C5 witness: the theorem applied over `Nat`-coded function objects, to a
missing coordinator and to a zone without a `_zone_json` attribute. -/
theorem c5_witness :
    (asyncSetupRoomiqSensors (0 : Nat) none []).addedEntities = none
    ∧ createRoomIQSensors ⟨3, "Cellar", none, false⟩ = [] :=
  ⟨(c5_error_handling 0 []).2.1,
   (c5_error_handling (0 : Nat) []).2.2.2.1 ⟨3, "Cellar", none, false⟩ rfl⟩

theorem reloadAll_ok_iff (l : List Nat) (rf : Nat → Bool) :
    (reloadAll l rf).2 = l.all fun e => !rf e := by
  induction l with
  | nil => rfl
  | cons e rest ih =>
    unfold reloadAll
    cases he : rf e with
    | true => simp [he]
    | false => simp [he, ih]

theorem reloadAll_events_of_ok {l : List Nat} {rf : Nat → Bool}
    (h : ∀ e ∈ l, rf e = false) :
    (reloadAll l rf).1 = l.map HookEvent.reloadEntry := by
  induction l with
  | nil => rfl
  | cons e rest ih =>
    unfold reloadAll
    rw [h e (by simp)]
    simp [ih fun x hx => h x (by simp [hx])]

/-- C6: the start-up hook `async_setup` returns `False` and performs no
injection when no Nexia config entry exists; when at least one entry exists
and no reload raises, it performs the injection (swapping in the setup
wrapper when injection was not already complete) and reloads every Nexia
entry, returning `True`; and an exception during the process (a failing
reload) makes it return `False` instead of propagating. -/
theorem c6_startup_hook {F : Type} (w : F) (entries : List Nat)
    (rf : Nat → Bool) (st : InjectState F) (m : SensorModule F) :
    (entries = [] →
      asyncSetupHook w entries rf st m = ⟨[HookEvent.sleepStartup], false, st, m⟩)
    ∧ (entries ≠ [] → (∀ e ∈ entries, rf e = false) →
        (asyncSetupHook w entries rf st m).result = true
        ∧ HookEvent.injectSetup ∈ (asyncSetupHook w entries rf st m).events
        ∧ (∀ e ∈ entries,
            HookEvent.reloadEntry e ∈ (asyncSetupHook w entries rf st m).events)
        ∧ (st.injectionComplete = false →
            (asyncSetupHook w entries rf st m).module.async_setup_entry = w))
    ∧ (entries ≠ [] → ∀ e ∈ entries, rf e = true →
        (asyncSetupHook w entries rf st m).result = false) := by
  refine ⟨?_, ?_, ?_⟩
  · intro h
    subst h
    rfl
  · intro hne hok
    have hemp : entries.isEmpty = false := by
      cases entries with
      | nil => exact absurd rfl hne
      | cons a l => rfl
    refine ⟨?_, ?_, ?_, ?_⟩
    · simp only [asyncSetupHook, hemp, Bool.false_eq_true, if_false,
        reloadAll_ok_iff]
      exact List.all_eq_true.mpr fun e he => by rw [hok e he]; rfl
    · simp [asyncSetupHook, hemp]
    · intro e he
      simp only [asyncSetupHook, hemp, Bool.false_eq_true, if_false,
        reloadAll_events_of_ok hok]
      exact List.mem_cons_of_mem _ (List.mem_cons_of_mem _
        (List.mem_map_of_mem _ he))
    · intro hst
      simp [asyncSetupHook, hemp, inject, hst]
  · intro hne e he hrf
    have hemp : entries.isEmpty = false := by
      cases entries with
      | nil => exact absurd rfl hne
      | cons a l => rfl
    simp only [asyncSetupHook, hemp, Bool.false_eq_true, if_false,
      reloadAll_ok_iff]
    rcases hall : entries.all fun x => !rf x with _ | _
    · rfl
    · exact absurd (List.all_eq_true.mp hall e he) (by simp [hrf])

/-- C6 witness: the theorem applied to an empty entry list (no injection,
`False`), and to two entries whose reloads succeed (`True`). -/
theorem c6_witness :
    asyncSetupHook (1 : Nat) [] (fun _ => false) ⟨none, false⟩ ⟨0, fun _ => 0⟩ =
      ⟨[HookEvent.sleepStartup], false, ⟨none, false⟩, ⟨0, fun _ => 0⟩⟩
    ∧ (asyncSetupHook (1 : Nat) [7, 8] (fun _ => false) ⟨none, false⟩
        ⟨0, fun _ => 0⟩).result = true :=
  ⟨(c6_startup_hook 1 [] (fun _ => false) ⟨none, false⟩ ⟨0, fun _ => 0⟩).1 rfl,
   ((c6_startup_hook 1 [7, 8] (fun _ => false) ⟨none, false⟩
      ⟨0, fun _ => 0⟩).2.1 (by simp) (by simp)).1⟩

/-- C7: the three entity properties are read-only over the consumed blob and
keep no local state: each getter hands back the zone object unchanged, a
value read after other property reads equals the value read directly, and
each value is recomputed as a pure function of the current blob and the
entity's stored identity alone. -/
theorem c7_read_only (z : ZoneObj) (sid sname : Json) (stype : SensorType)
    (sa : Bool) :
    (nativeValueM z sid stype).2 = z
    ∧ (extraStateAttributesM z sid sname stype).2 = z
    ∧ (availableM sa z sid stype).2 = z
    ∧ (nativeValueM ((extraStateAttributesM ((availableM sa z sid stype).2)
        sid sname stype).2) sid stype).1 = (nativeValueM z sid stype).1
    ∧ ∀ j : Option Json,
        (nativeValueM ⟨j⟩ sid stype).1 = nativeValue j sid stype
        ∧ (extraStateAttributesM ⟨j⟩ sid sname stype).1 =
            extraStateAttributes j sid sname stype
        ∧ (availableM sa ⟨j⟩ sid stype).1 = availableProp sa j sid stype :=
  ⟨rfl, rfl, rfl, rfl, fun _ => ⟨rfl, rfl, rfl⟩⟩

/-- C10 counterexample: the claim "given a present record and passing
connectivity, a weight-type entity is always available" omits the
`super().available` guard: on `plainZoneJson` the record with id 7 is
present and not wireless, yet with a failed coordinator update
(`superAvail = false`) the weight entity reports unavailable. -/
theorem c10_counterexample :
    (∃ skvs, getSensorData (some plainZoneJson) (Json.num 7) = some (.obj skvs)
      ∧ truthy (pyGetD skvs "has_online" (.bool false)) = false)
    ∧ availableProp false (some plainZoneJson) (Json.num 7)
        SensorType.weight = false :=
  ⟨⟨[("id", .num 7), ("name", .str "S"), ("weight", .num 1)], rfl, rfl⟩, rfl⟩

/-- C10 amended: provided the parent entity reports available
(`super().available`, the coordinator's last update succeeded), the
availability invariant holds: `available` is `False` whenever the record is
absent, and whenever `has_online` is truthy but `connected` is not (both
regardless of the parent); given a present record and passing connectivity,
a weight entity is available, and temperature/humidity/battery entities are
available exactly according to their validity flags (`battery` also needs
`has_battery`). -/
theorem c10_availability (sa : Bool) (zj : Option Json) (sid : Json) :
    (getSensorData zj sid = none →
      ∀ stype, availableProp sa zj sid stype = false)
    ∧ ∀ skvs, getSensorData zj sid = some (.obj skvs) →
        (truthy (pyGetD skvs "has_online" (.bool false)) = true →
          truthy (pyGetD skvs "connected" (.bool false)) = false →
          ∀ stype, availableProp sa zj sid stype = false)
        ∧ (sa = true →
            (truthy (pyGetD skvs "has_online" (.bool false)) = true →
              truthy (pyGetD skvs "connected" (.bool false)) = true) →
            availableProp sa zj sid SensorType.weight = true
            ∧ availableProp sa zj sid SensorType.temperature =
                truthy (pyGetD skvs "temperature_valid" (.bool false))
            ∧ availableProp sa zj sid SensorType.humidity =
                truthy (pyGetD skvs "humidity_valid" (.bool false))
            ∧ availableProp sa zj sid SensorType.battery =
                (truthy (pyGetD skvs "battery_valid" (.bool false))
                  && truthy (pyGetD skvs "has_battery" (.bool false)))) := by
  constructor
  · intro h stype
    cases sa <;> simp [availableProp, h]
  · intro skvs h
    constructor
    · intro hon hconn stype
      cases sa <;> simp [availableProp, h, hon, hconn]
    · intro hsa hpass
      subst hsa
      have hnc : (truthy (pyGetD skvs "has_online" (.bool false))
          && !truthy (pyGetD skvs "connected" (.bool false))) = false := by
        cases hon : truthy (pyGetD skvs "has_online" (.bool false)) with
        | false => rfl
        | true => rw [hpass hon]; rfl
      refine ⟨?_, ?_, ?_, ?_⟩ <;> simp [availableProp, h, hnc]

/-- C10 witness: the amended theorem applied to `plainZoneJson` with a
healthy coordinator: the weight entity is available. -/
theorem c10_witness :
    availableProp true (some plainZoneJson) (Json.num 7)
      SensorType.weight = true :=
  ((((c10_availability true (some plainZoneJson) (Json.num 7)).2
      [("id", .num 7), ("name", .str "S"), ("weight", .num 1)] rfl).2 rfl)
      fun hon => absurd hon (by decide)).1

end NexiaRoomIQ
